import Mathlib

/-!
Verification of the moonshot recipe registry and rouge scorer.

Shallow embedding of:
  - src/moonshot/src/recipes/recipe.py        (class Recipe)
  - src/moonshot/data/metrics/rougescorer.py  (class RougeScorer)

Python dicts are modelled as insertion-ordered association lists
(`List (String × Nat)` and friends) with Python assignment semantics:
inserting an existing key replaces its value in place, a fresh key is
appended at the end.  Python dict equality is order-insensitive, so
where the spec says two dicts are "the same" we compare them with the
extensional relation `dictEquiv`.

Record storage (`Storage`, namespace "recipes") and the dataset catalog
(`Dataset`) are external collaborators consumed through narrow
interfaces; they are modelled as explicit state values threaded through
the operations.  Per the spec, storage keys are "filenames/ids", so the
`Path(rec).stem` step of `get_available_items` is the identity on a key.
-/

set_option autoImplicit false

namespace Moonshot

/-! ## Python dict model -/

/-- Membership-and-value lookup in a Python-dict model: the first binding
of the key, if any (keys are unique in a built dict). -/
def dictFind (d : List (String × Nat)) (k : String) : Option Nat :=
  match d with
  | [] => none
  | p :: rest => if p.1 = k then some p.2 else dictFind rest k

/-- Python `d.get(k, default)`. -/
def dictGet (d : List (String × Nat)) (k : String) (default : Nat) : Nat :=
  match dictFind d k with
  | some v => v
  | none => default

/-- Python `d[k] = v`: replace in place when the key exists, else append. -/
def dictInsert (d : List (String × Nat)) (k : String) (v : Nat) : List (String × Nat) :=
  match d with
  | [] => [(k, v)]
  | p :: rest => if p.1 = k then (k, v) :: rest else p :: dictInsert rest k v

/-- Build a dict from a sequence of key/value pairs, later assignments
overwriting earlier ones (Python dict-comprehension semantics). -/
def dictOf (l : List (String × Nat)) : List (String × Nat) :=
  l.foldl (fun d p => dictInsert d p.1 p.2) []

/-- The key list of a dict. -/
def dictKeys (d : List (String × Nat)) : List String :=
  d.map Prod.fst

/-- Python `==` on dicts: same keys bound to the same values, order
irrelevant. -/
def dictEquiv (a b : List (String × Nat)) : Prop :=
  ∀ k, dictFind a k = dictFind b k

/-- Left-biased choice on optional values, used to describe lookups in
concatenated dicts. -/
def optOr (a b : Option Nat) : Option Nat :=
  match a with
  | some v => some v
  | none => b

/-- Python substring test `pat in s`. -/
def strContains (s pat : String) : Bool :=
  s.toList.tails.any (fun t => pat.toList.isPrefixOf t)

/-! ## Data model -/

/-- The stats block computed by `Recipe._read_recipe` (recipe.py lines
156-163): five sequence-length counts plus the per-dataset prompt-count
dict. -/
structure RecipeStats where
  num_of_tags : Nat
  num_of_datasets : Nat
  num_of_prompt_templates : Nat
  num_of_metrics : Nat
  num_of_attack_modules : Nat
  num_of_datasets_prompts : List (String × Nat)
  deriving DecidableEq, Repr

/-- A recipe record: the fields of `RecipeArguments` / of the stored JSON
dict.  `grading_scale` is opaque and passed through unmodified; it is
modelled as a string blob.  `stats` is `none` when the dict has no stats
key (the form `create` writes). -/
structure RecipeRecord where
  id : String
  name : String
  description : String
  tags : List String
  categories : List String
  datasets : List String
  prompt_templates : List String
  metrics : List String
  attack_modules : List String
  grading_scale : String
  stats : Option RecipeStats
  deriving DecidableEq, Repr

/-- A dataset catalog entry: id and prompt count, the two fields of the
dataset metadata that recipe.py consumes. -/
structure DatasetRecord where
  id : String
  num_of_dataset_prompts : Nat
  deriving DecidableEq, Repr

/-! ## External collaborators -/

/-- The "recipes" namespace of the record store: insertion-ordered
id-keyed records. -/
def StorageState := List (String × RecipeRecord)

/-- Model of `Storage.read_object(EnvVariables.RECIPES.name, id, "json")`: the
record stored under `id`, if any. -/
def Storage.read_object (st : StorageState) (rec_id : String) : Option RecipeRecord :=
  match st with
  | [] => none
  | p :: rest => if p.1 = rec_id then some p.2 else Storage.read_object rest rec_id

/-- Model of `Storage.create_object`: write (or overwrite) the record at `id`. -/
def Storage.create_object (st : StorageState) (rec_id : String) (rec : RecipeRecord) :
    StorageState :=
  match st with
  | [] => [(rec_id, rec)]
  | p :: rest =>
      if p.1 = rec_id then (rec_id, rec) :: rest
      else p :: Storage.create_object rest rec_id rec

/-- Model of `Storage.delete_object`: remove the record at `id`; fails when no such
record exists ("record not found"). -/
def Storage.delete_object (st : StorageState) (rec_id : String) :
    Except String StorageState :=
  match st with
  | [] => Except.error ("No recipe found with ID: " ++ rec_id)
  | p :: rest =>
      if p.1 = rec_id then Except.ok rest
      else
        match Storage.delete_object rest rec_id with
        | Except.ok st2 => Except.ok (p :: st2)
        | Except.error e => Except.error e

/-- Model of `Storage.get_objects(EnvVariables.RECIPES.name, "json")`: enumerate
the stored record keys in store order. -/
def Storage.get_objects (st : StorageState) : List String :=
  st.map Prod.fst

/-- Modelled from the spec: `Dataset.get_available_items` is not under
src/; the spec describes it as
`DatasetCatalog.get_available_items(optionalIdFilter) -> (ids, [{id, promptCount}])`,
enumerating the datasets of the catalog, restricted to the given id
filter when one is supplied.  Returns the ids and the metadata of the
catalog entries passing the filter, in catalog order. -/
def Dataset.get_available_items (catalog : List DatasetRecord)
    (filter : Option (List String)) : List String × List DatasetRecord :=
  let items :=
    match filter with
    | none => catalog
    | some f => catalog.filter (fun d => d.id ∈ f)
  (items.map DatasetRecord.id, items)

/-! ## Recipe registry (recipe.py) -/

/-- Model of `Recipe._get_datasets_prompt_counts` (recipe.py lines 117-133): scan
the full dataset catalog once and build the dataset-id to prompt-count
dict. -/
def Recipe.get_datasets_prompt_counts (catalog : List DatasetRecord) :
    List (String × Nat) :=
  dictOf (((Dataset.get_available_items catalog none).2).map
    (fun d => (d.id, d.num_of_dataset_prompts)))

/-- The stats block of `Recipe._read_recipe` for a given raw record and
dataset-prompt-count dict (recipe.py lines 155-175).  When the supplied
dict is non-empty (Python truthiness), each of the recipe's datasets is
looked up in it with default 0; otherwise a catalog query restricted to
the recipe's datasets builds the dict from the returned metadata. -/
def Recipe.computeStats (catalog : List DatasetRecord) (obj : RecipeRecord)
    (dataset_prompts_count : List (String × Nat)) : RecipeStats :=
  { num_of_tags := obj.tags.length
    num_of_datasets := obj.datasets.length
    num_of_prompt_templates := obj.prompt_templates.length
    num_of_metrics := obj.metrics.length
    num_of_attack_modules := obj.attack_modules.length
    num_of_datasets_prompts :=
      if dataset_prompts_count.isEmpty then
        dictOf (((Dataset.get_available_items catalog (some obj.datasets)).2).map
          (fun d => (d.id, d.num_of_dataset_prompts)))
      else
        dictOf (obj.datasets.map
          (fun dataset_name => (dataset_name, dictGet dataset_prompts_count dataset_name 0))) }

/-- Model of `Recipe._read_recipe` (recipe.py lines 135-178): read the stored
record, fail with "Unable to get results for {rec_id}." when absent,
otherwise attach the computed stats block. -/
def Recipe.read_recipe (st : StorageState) (catalog : List DatasetRecord)
    (rec_id : String) (dataset_prompts_count : List (String × Nat)) :
    Except String RecipeRecord :=
  match Storage.read_object st rec_id with
  | none => Except.error ("Unable to get results for " ++ rec_id ++ ".")
  | some obj =>
      Except.ok { obj with stats := some (Recipe.computeStats catalog obj dataset_prompts_count) }

/-- Model of `Recipe.read` (recipe.py lines 88-115): empty ids are rejected
("Recipe ID is empty"), otherwise `_read_recipe` runs with no precomputed
map.  The `except` clause prints and re-raises, leaving the failure
unchanged. -/
def Recipe.read (st : StorageState) (catalog : List DatasetRecord) (rec_id : String) :
    Except String RecipeRecord :=
  if rec_id = "" then Except.error "Recipe ID is empty"
  else Recipe.read_recipe st catalog rec_id []

/-- Model of `Recipe.load` (recipe.py lines 28-43): `read` followed by the `Recipe`
constructor, which copies every field of the arguments unchanged. -/
def Recipe.load (st : StorageState) (catalog : List DatasetRecord) (rec_id : String) :
    Except String RecipeRecord :=
  Recipe.read st catalog rec_id

/-- The stored dict `rec_info` assembled by `Recipe.create` (recipe.py
lines 66-78): the argument fields with the slugified name as id and no
stats entry. -/
def createdRecord (slug : String → String) (rec_args : RecipeRecord) : RecipeRecord :=
  { id := slug rec_args.name
    name := rec_args.name
    description := rec_args.description
    tags := rec_args.tags
    categories := rec_args.categories
    datasets := rec_args.datasets
    prompt_templates := rec_args.prompt_templates
    metrics := rec_args.metrics
    attack_modules := rec_args.attack_modules
    grading_scale := rec_args.grading_scale
    stats := none }

/-- Model of `Recipe.create` (recipe.py lines 45-86): slugify the name into the id,
assemble the stored dict from the argument fields with no stats entry,
write it under the id, and return the id together with the new store
state.  `slug` is the external slugify collaborator. -/
def Recipe.create (st : StorageState) (slug : String → String) (rec_args : RecipeRecord) :
    String × StorageState :=
  let rec_id := slug rec_args.name
  (rec_id, Storage.create_object st rec_id (createdRecord slug rec_args))

/-- Modelled from the spec: `RecipeArguments.to_dict` is not under src/;
the spec says `update` "re-serializes all fields (including anything
client-supplied, e.g. a stale stats block if present — caller
responsibility to strip it)".  On the structural record model this
re-serialization is the identity, stats included when present. -/
def RecipeRecord.to_dict (r : RecipeRecord) : RecipeRecord := r

/-- Model of `Recipe.update` (recipe.py lines 180-210): serialize the arguments
with `to_dict` and overwrite the record at `rec_args.id`; returns `true`
with the new store state. -/
def Recipe.update (st : StorageState) (rec_args : RecipeRecord) : Bool × StorageState :=
  (true, Storage.create_object st rec_args.id rec_args.to_dict)

/-- Model of `Recipe.delete` (recipe.py lines 212-237): delete the stored record,
re-raising the storage failure when it is absent. -/
def Recipe.delete (st : StorageState) (rec_id : String) :
    Except String (Bool × StorageState) :=
  match Storage.delete_object st rec_id with
  | Except.ok st2 => Except.ok (true, st2)
  | Except.error e => Except.error e

/-- The enumeration loop of `Recipe.get_available_items` (recipe.py lines
262-270): walk the storage keys in order, skip any key containing "__",
read each remaining record with the precomputed counts dict, and collect
ids and records; the first failing read aborts the whole listing. -/
def Recipe.listLoop (st : StorageState) (catalog : List DatasetRecord)
    (dataset_prompts_count : List (String × Nat)) :
    List String → Except String (List String × List RecipeRecord)
  | [] => Except.ok ([], [])
  | rec :: rest =>
      if strContains rec "__" then Recipe.listLoop st catalog dataset_prompts_count rest
      else
        match Recipe.read_recipe st catalog rec dataset_prompts_count with
        | Except.error e => Except.error e
        | Except.ok rec_info =>
            match Recipe.listLoop st catalog dataset_prompts_count rest with
            | Except.error e => Except.error e
            | Except.ok (ids, recs) => Except.ok (rec_info.id :: ids, rec_info :: recs)

/-- Model of `Recipe.get_available_items` (recipe.py lines 239-276): compute the
dataset prompt counts once from the full catalog, then run the
enumeration loop over the stored keys. -/
def Recipe.get_available_items (st : StorageState) (catalog : List DatasetRecord) :
    Except String (List String × List RecipeRecord) :=
  Recipe.listLoop st catalog (Recipe.get_datasets_prompt_counts catalog)
    (Storage.get_objects st)

/-! ## Rouge scorer (rougescorer.py)

Scores are Python floats; they are modelled as rationals.  The
underlying string-overlap algorithm (`rouge_scorer.RougeScorer.score`)
is an external collaborator, modelled as a black-box function from a
target/result pair to one recall/precision/fmeasure triple per metric
kind of the fixed list `["rouge1", "rouge2", "rougeLsum"]`. -/

/-- One recall/precision/fmeasure triple. -/
structure ScoreTriple where
  r : Rat
  p : Rat
  f : Rat
  deriving DecidableEq, Repr

/-- One score triple per metric kind of the fixed list
`["rouge1", "rouge2", "rougeLsum"]`: the result of one
`scorer.score(target, result)` call, and also the shape of the running
sum accumulators `avg_recall`/`avg_precision`/`avg_fmeasure`. -/
structure KindScores where
  rouge1 : ScoreTriple
  rouge2 : ScoreTriple
  rougeLsum : ScoreTriple
  deriving DecidableEq, Repr

/-- Componentwise addition, the `+=` steps of the scoring loop. -/
def ScoreTriple.add (a b : ScoreTriple) : ScoreTriple :=
  { r := a.r + b.r, p := a.p + b.p, f := a.f + b.f }

/-- Componentwise addition over the three metric kinds. -/
def KindScores.add (a b : KindScores) : KindScores :=
  { rouge1 := a.rouge1.add b.rouge1
    rouge2 := a.rouge2.add b.rouge2
    rougeLsum := a.rougeLsum.add b.rougeLsum }

/-- The `[0.0, 0.0, 0.0]` initial accumulators. -/
def KindScores.zero : KindScores :=
  { rouge1 := ⟨0, 0, 0⟩, rouge2 := ⟨0, 0, 0⟩, rougeLsum := ⟨0, 0, 0⟩ }

/-- Division of each component by `len(targets)`. -/
def ScoreTriple.divN (a : ScoreTriple) (n : Nat) : ScoreTriple :=
  { r := a.r / (n : Rat), p := a.p / (n : Rat), f := a.f / (n : Rat) }

/-- The output dict `{"rouge": {"rouge-scores": ..., "avg_rouge1": ...,
"avg_rouge2": ..., "avg_rougeLsum": ...}}`. -/
structure RougeOutput where
  rouge_scores : List KindScores
  avg_rouge1 : ScoreTriple
  avg_rouge2 : ScoreTriple
  avg_rougeLsum : ScoreTriple
  deriving DecidableEq, Repr

/-- The per-pair loop of `RougeScorer.get_results` (rougescorer.py lines
68-83): walk the zipped target/result pairs, add each pair's scores into
the running sums and append them to the individual-scores list. -/
def RougeScorer.scoreFold (score : String → String → KindScores)
    (pairs : List (String × String)) (acc : KindScores × List KindScores) :
    KindScores × List KindScores :=
  pairs.foldl (fun a pr => (a.1.add (score pr.1 pr.2), a.2 ++ [score pr.1 pr.2])) acc

/-- Model of `RougeScorer.get_results` (rougescorer.py lines 32-103): zip targets
with predicted results (`zip` silently truncates to the shorter list),
score each pair while accumulating running sums, then divide each sum by
`len(targets)`.  With no targets that division raises Python's
`ZeroDivisionError`, caught and re-raised as
`RuntimeError("Unable to calculate rouge score - ...")`; the `prompts`
argument and the async wrapper play no role in the computation. -/
def RougeScorer.get_results (score : String → String → KindScores)
    (predicted_results targets : List String) : Except String RougeOutput :=
  let pairs := targets.zip predicted_results
  let res := RougeScorer.scoreFold score pairs (KindScores.zero, [])
  if targets.length = 0 then
    Except.error "Unable to calculate rouge score - float division by zero"
  else
    Except.ok
      { rouge_scores := res.2
        avg_rouge1 := res.1.rouge1.divN targets.length
        avg_rouge2 := res.1.rouge2.divN targets.length
        avg_rougeLsum := res.1.rougeLsum.divN targets.length }

/-! ## Result-inspection helpers and concrete example values -/

/-- Whether an operation failed. -/
def isErr {α : Type} : Except String α → Bool
  | Except.error _ => true
  | Except.ok _ => false

/-- The successful result of an operation, if any. -/
def okResult {α : Type} : Except String α → Option α
  | Except.ok a => some a
  | Except.error _ => none

/-- The successfully loaded record, if any. -/
def loadedRecord (st : StorageState) (catalog : List DatasetRecord) (rec_id : String) :
    Option RecipeRecord :=
  match Recipe.load st catalog rec_id with
  | Except.ok r => some r
  | Except.error _ => none

/-- The stats block of the successfully loaded record, if any. -/
def loadedStats (st : StorageState) (catalog : List DatasetRecord) (rec_id : String) :
    Option RecipeStats :=
  (loadedRecord st catalog rec_id).bind RecipeRecord.stats

/-- A concrete recipe record referencing the single dataset "d1". -/
def exRecipe : RecipeRecord :=
  { id := "r"
    name := "r"
    description := "a recipe"
    tags := ["t1"]
    categories := []
    datasets := ["d1"]
    prompt_templates := ["pt1"]
    metrics := ["m1"]
    attack_modules := []
    grading_scale := "gs"
    stats := none }

/-- A store holding `exRecipe` under the key "r". -/
def exStore : StorageState := [("r", exRecipe)]

/-- A catalog that does not know the dataset "d1". -/
def exCatalog : List DatasetRecord := [{ id := "other", num_of_dataset_prompts := 5 }]

/-- A catalog that knows both "d1" and "other". -/
def exCatalogD1 : List DatasetRecord :=
  [{ id := "d1", num_of_dataset_prompts := 3 }, { id := "other", num_of_dataset_prompts := 5 }]

/-- A concrete record whose content id differs from the key it is stored
under in `exStoreKeyed`. -/
def exRecipeOther : RecipeRecord := { exRecipe with id := "other" }

/-- A store where the storage key "k" differs from the stored record's
own id "other", plus an internal record under a key containing "__". -/
def exStoreKeyed : StorageState := [("sys__cache", exRecipe), ("k", exRecipeOther)]

/-- The stats `exRecipeOther` gets when read against the empty catalog. -/
def exStatsEmptyCat : RecipeStats :=
  { num_of_tags := 1
    num_of_datasets := 1
    num_of_prompt_templates := 1
    num_of_metrics := 1
    num_of_attack_modules := 0
    num_of_datasets_prompts := [] }

/-- The record `exRecipeOther` as returned by a read against the empty catalog. -/
def exLoadedOther : RecipeRecord := { exRecipeOther with stats := some exStatsEmptyCat }

/-- A store holding `exRecipeOther` under the key "k" only. -/
def exStoreK : StorageState := [("k", exRecipeOther)]

/-- The record `exRecipeOther` as returned by the precomputed-map read path against
`exCatalog`, which does not know the dataset "d1". -/
def exLoadedOtherD1 : RecipeRecord :=
  { exRecipeOther with stats := some { exStatsEmptyCat with num_of_datasets_prompts := [("d1", 0)] } }

/-- A concrete stats block a client might leave on its update arguments. -/
def exStaleStats : RecipeStats :=
  { num_of_tags := 9
    num_of_datasets := 9
    num_of_prompt_templates := 9
    num_of_metrics := 9
    num_of_attack_modules := 9
    num_of_datasets_prompts := [("d1", 7)] }

/-- Update arguments carrying a client-supplied stats block. -/
def exUpdateArgs : RecipeRecord := { exRecipe with stats := some exStaleStats }

/-- The all-ones pair score used to instantiate the black-box overlap
scorer in concrete scorer computations. -/
def exOnes : KindScores :=
  { rouge1 := ⟨1, 1, 1⟩, rouge2 := ⟨1, 1, 1⟩, rougeLsum := ⟨1, 1, 1⟩ }

/-- The scorer output on a single pair whose every score is 1 under the
all-ones black-box scorer. -/
def exOut : RougeOutput :=
  { rouge_scores := [exOnes]
    avg_rouge1 := ⟨1, 1, 1⟩
    avg_rouge2 := ⟨1, 1, 1⟩
    avg_rougeLsum := ⟨1, 1, 1⟩ }

/-! ## Dict lemmas -/

theorem optOr_none (a : Option Nat) : optOr a none = a := by
  cases a <;> rfl

theorem dictFind_append (a b : List (String × Nat)) (k : String) :
    dictFind (a ++ b) k = optOr (dictFind a k) (dictFind b k) := by
  induction a with
  | nil => rfl
  | cons p rest ih =>
      by_cases h : p.1 = k <;> simp [dictFind, h, ih, optOr]

theorem dictFind_dictInsert (d : List (String × Nat)) (k : String) (v : Nat) (k2 : String) :
    dictFind (dictInsert d k v) k2 = if k = k2 then some v else dictFind d k2 := by
  induction d with
  | nil => rfl
  | cons p rest ih =>
      by_cases hpk : p.1 = k
      · by_cases hk : k = k2
        · simp [dictInsert, dictFind, hpk, hk]
        · have hpk2 : ¬ p.1 = k2 := by rw [hpk]; exact hk
          simp [dictInsert, dictFind, hpk, hk, hpk2]
      · by_cases hpk2 : p.1 = k2
        · have hk : ¬ k = k2 := by
            intro h
            exact hpk (by rw [h, hpk2])
          have hk2 : ¬ k2 = k := fun h => hk h.symm
          simp [dictInsert, dictFind, hpk, hpk2, hk, hk2]
        · simp [dictInsert, dictFind, hpk, hpk2, ih]

theorem dictFind_foldl (l : List (String × Nat)) (d0 : List (String × Nat)) (k : String) :
    dictFind (l.foldl (fun d p => dictInsert d p.1 p.2) d0) k =
      optOr (dictFind l.reverse k) (dictFind d0 k) := by
  induction l generalizing d0 with
  | nil => rfl
  | cons p rest ih =>
      rw [List.foldl_cons, ih, List.reverse_cons, dictFind_append]
      cases hrest : dictFind rest.reverse k <;>
        by_cases hpk : p.1 = k <;>
          simp [optOr, dictFind, dictFind_dictInsert, hpk]

theorem dictFind_dictOf (l : List (String × Nat)) (k : String) :
    dictFind (dictOf l) k = dictFind l.reverse k := by
  rw [dictOf, dictFind_foldl]
  exact optOr_none _

theorem dictFind_map_self (g : String → Nat) (m : List String) (k : String) :
    dictFind (m.map (fun n => (n, g n))) k = if k ∈ m then some (g k) else none := by
  induction m with
  | nil => rfl
  | cons n rest ih =>
      by_cases hnk : n = k
      · subst hnk
        simp [dictFind, ih]
      · have hkn : ¬ k = n := fun h => hnk h.symm
        simp [dictFind, hnk, ih, List.mem_cons, hkn]

theorem dictFind_isSome (d : List (String × Nat)) (k : String) :
    (dictFind d k).isSome = true ↔ k ∈ dictKeys d := by
  induction d with
  | nil => simp [dictFind, dictKeys]
  | cons p rest ih =>
      by_cases h : p.1 = k
      · simp [dictFind, dictKeys, h]
      · have hk : ¬ k = p.1 := fun hh => h hh.symm
        simp [dictFind, dictKeys, h, ih, hk]

theorem dictFind_ds (l : List DatasetRecord) (k : String) :
    (dictFind (l.map (fun d => (d.id, d.num_of_dataset_prompts))) k).isSome = true ↔
      k ∈ l.map DatasetRecord.id := by
  rw [dictFind_isSome]
  simp [dictKeys, List.map_map, Function.comp]

theorem dictFind_ds_filter (l : List DatasetRecord) (q : DatasetRecord → Bool) (k : String)
    (hq : ∀ d, d ∈ l → d.id = k → q d = true) :
    dictFind ((l.filter q).map (fun d => (d.id, d.num_of_dataset_prompts))) k =
      dictFind (l.map (fun d => (d.id, d.num_of_dataset_prompts))) k := by
  induction l with
  | nil => rfl
  | cons d rest ih =>
      have ihrest : ∀ e, e ∈ rest → e.id = k → q e = true := by
        intro e he hek
        exact hq e (List.mem_cons_of_mem d he) hek
      by_cases hdk : d.id = k
      · have hqd : q d = true := hq d (List.mem_cons_self d rest) hdk
        simp [List.filter_cons, hqd, dictFind, hdk, ih ihrest]
      · cases hqd : q d <;>
          simp [List.filter_cons, hqd, dictFind, hdk, ih ihrest]

/-! ## Scorer lemmas -/

theorem scoreFold_snd (score : String → String → KindScores)
    (pairs : List (String × String)) (acc : KindScores × List KindScores) :
    (RougeScorer.scoreFold score pairs acc).2 =
      acc.2 ++ pairs.map (fun pr => score pr.1 pr.2) := by
  induction pairs generalizing acc with
  | nil => simp [RougeScorer.scoreFold]
  | cons pr rest ih =>
      simp [RougeScorer.scoreFold] at ih ⊢
      rw [ih]
      simp

theorem scoreFold_fst (g : KindScores → Rat)
    (hg : ∀ a b, g (KindScores.add a b) = g a + g b)
    (score : String → String → KindScores)
    (pairs : List (String × String)) (acc : KindScores × List KindScores) :
    g (RougeScorer.scoreFold score pairs acc).1 =
      g acc.1 + (pairs.map (fun pr => g (score pr.1 pr.2))).sum := by
  induction pairs generalizing acc with
  | nil => simp [RougeScorer.scoreFold]
  | cons pr rest ih =>
      simp [RougeScorer.scoreFold] at ih ⊢
      rw [ih, hg]
      ring

theorem scoreFold_component (g : KindScores → Rat)
    (hg : ∀ a b, g (KindScores.add a b) = g a + g b)
    (hz : g KindScores.zero = 0)
    (score : String → String → KindScores) (pairs : List (String × String)) :
    g (RougeScorer.scoreFold score pairs (KindScores.zero, [])).1 =
      (((RougeScorer.scoreFold score pairs (KindScores.zero, [])).2).map g).sum := by
  rw [scoreFold_fst g hg, scoreFold_snd, hz]
  simp only [List.nil_append, List.map_map, zero_add]
  rfl

/-! ## Scorer claims -/

/-- C5: calling the scorer on the empty batch (targets and predictions
both empty) fails with the wrapped division-by-zero error rather than
returning a result; no partial output is surfaced. -/
theorem C5_empty_batch_fails (score : String → String → KindScores) :
    RougeScorer.get_results score [] [] =
      Except.error "Unable to calculate rouge score - float division by zero" := rfl

/-- C5 witness at the all-ones black-box scorer. -/
theorem C5_empty_batch_fails_witness :
    RougeScorer.get_results (fun _ _ => exOnes) [] [] =
      Except.error "Unable to calculate rouge score - float division by zero" :=
  C5_empty_batch_fails (fun _ _ => exOnes)

/-- C3 counterexample: with two targets and one prediction (mismatched
lengths) the scorer does not fail; it scores the single zipped pair and
returns a full result, refuting the claim that a length mismatch fails
before any per-pair computation. -/
theorem C3_counterexample :
    okResult (RougeScorer.get_results (fun _ _ => exOnes) ["a"] ["a", "b"]) =
      some
        { rouge_scores := [exOnes]
          avg_rouge1 := ⟨1/2, 1/2, 1/2⟩
          avg_rouge2 := ⟨1/2, 1/2, 1/2⟩
          avg_rougeLsum := ⟨1/2, 1/2, 1/2⟩ } := by
  simp only [RougeScorer.get_results, RougeScorer.scoreFold, List.zip, List.zipWith,
    List.foldl, okResult, KindScores.zero, KindScores.add, ScoreTriple.add,
    ScoreTriple.divN, exOnes, List.length_cons, List.length_nil]
  norm_num

/-- C3 (amended): the scorer performs no length validation; whenever
targets is non-empty it succeeds even on mismatched lengths, silently
truncating to the shorter of the two sequences — the number of per-pair
scores computed is min(len(targets), len(predictions)). -/
theorem C3_amended (score : String → String → KindScores)
    (predicted_results targets : List String)
    (hne : targets ≠ []) (_hdiff : targets.length ≠ predicted_results.length) :
    (okResult (RougeScorer.get_results score predicted_results targets)).map
        (fun out => out.rouge_scores.length) =
      some (min targets.length predicted_results.length) := by
  have h0 : ¬ targets.length = 0 := by simpa using hne
  simp only [RougeScorer.get_results]
  rw [if_neg h0]
  simp [okResult, scoreFold_snd, List.length_zip]

/-- C3 (amended) witness at targets = ["a", "b"], predictions = ["a"]. -/
theorem C3_amended_witness :
    (okResult (RougeScorer.get_results (fun _ _ => exOnes) ["a"] ["a", "b"])).map
        (fun out => out.rouge_scores.length) =
      some (min (["a", "b"] : List String).length (["a"] : List String).length) :=
  C3_amended (fun _ _ => exOnes) ["a"] ["a", "b"] (by decide) (by decide)

/-- C7: on a non-empty equal-length batch of size N, every returned
average entry (per metric kind, per component) is the sum of the
corresponding component over the N individual per-pair scores divided
by N, and there are exactly N individual scores. -/
theorem C7_average_is_mean (score : String → String → KindScores)
    (predicted_results targets : List String) (out : RougeOutput)
    (hlen : targets.length = predicted_results.length) (hne : targets ≠ [])
    (hok : RougeScorer.get_results score predicted_results targets = Except.ok out) :
    out.rouge_scores.length = targets.length ∧
    out.avg_rouge1.r = (out.rouge_scores.map (fun s => s.rouge1.r)).sum / (targets.length : Rat) ∧
    out.avg_rouge1.p = (out.rouge_scores.map (fun s => s.rouge1.p)).sum / (targets.length : Rat) ∧
    out.avg_rouge1.f = (out.rouge_scores.map (fun s => s.rouge1.f)).sum / (targets.length : Rat) ∧
    out.avg_rouge2.r = (out.rouge_scores.map (fun s => s.rouge2.r)).sum / (targets.length : Rat) ∧
    out.avg_rouge2.p = (out.rouge_scores.map (fun s => s.rouge2.p)).sum / (targets.length : Rat) ∧
    out.avg_rouge2.f = (out.rouge_scores.map (fun s => s.rouge2.f)).sum / (targets.length : Rat) ∧
    out.avg_rougeLsum.r =
      (out.rouge_scores.map (fun s => s.rougeLsum.r)).sum / (targets.length : Rat) ∧
    out.avg_rougeLsum.p =
      (out.rouge_scores.map (fun s => s.rougeLsum.p)).sum / (targets.length : Rat) ∧
    out.avg_rougeLsum.f =
      (out.rouge_scores.map (fun s => s.rougeLsum.f)).sum / (targets.length : Rat) := by
  have h0 : ¬ targets.length = 0 := by simpa using hne
  simp only [RougeScorer.get_results] at hok
  rw [if_neg h0] at hok
  injection hok with h
  subst h
  refine ⟨?_, ?_, ?_, ?_, ?_, ?_, ?_, ?_, ?_, ?_⟩
  · rw [scoreFold_snd]
    simp [List.length_zip, ← hlen]
  · exact congrArg (fun q => q / ((targets.length : Nat) : Rat))
      (scoreFold_component (fun ks => ks.rouge1.r) (fun a b => rfl) rfl score
        (targets.zip predicted_results))
  · exact congrArg (fun q => q / ((targets.length : Nat) : Rat))
      (scoreFold_component (fun ks => ks.rouge1.p) (fun a b => rfl) rfl score
        (targets.zip predicted_results))
  · exact congrArg (fun q => q / ((targets.length : Nat) : Rat))
      (scoreFold_component (fun ks => ks.rouge1.f) (fun a b => rfl) rfl score
        (targets.zip predicted_results))
  · exact congrArg (fun q => q / ((targets.length : Nat) : Rat))
      (scoreFold_component (fun ks => ks.rouge2.r) (fun a b => rfl) rfl score
        (targets.zip predicted_results))
  · exact congrArg (fun q => q / ((targets.length : Nat) : Rat))
      (scoreFold_component (fun ks => ks.rouge2.p) (fun a b => rfl) rfl score
        (targets.zip predicted_results))
  · exact congrArg (fun q => q / ((targets.length : Nat) : Rat))
      (scoreFold_component (fun ks => ks.rouge2.f) (fun a b => rfl) rfl score
        (targets.zip predicted_results))
  · exact congrArg (fun q => q / ((targets.length : Nat) : Rat))
      (scoreFold_component (fun ks => ks.rougeLsum.r) (fun a b => rfl) rfl score
        (targets.zip predicted_results))
  · exact congrArg (fun q => q / ((targets.length : Nat) : Rat))
      (scoreFold_component (fun ks => ks.rougeLsum.p) (fun a b => rfl) rfl score
        (targets.zip predicted_results))
  · exact congrArg (fun q => q / ((targets.length : Nat) : Rat))
      (scoreFold_component (fun ks => ks.rougeLsum.f) (fun a b => rfl) rfl score
        (targets.zip predicted_results))

/-- C7 witness at the singleton batch targets = ["b"],
predictions = ["a"] under the all-ones scorer. -/
theorem C7_average_is_mean_witness :
    exOut.rouge_scores.length = (["b"] : List String).length ∧
    exOut.avg_rouge1.r =
      (exOut.rouge_scores.map (fun s => s.rouge1.r)).sum /
        (((["b"] : List String).length : Nat) : Rat) ∧
    exOut.avg_rouge1.p =
      (exOut.rouge_scores.map (fun s => s.rouge1.p)).sum /
        (((["b"] : List String).length : Nat) : Rat) ∧
    exOut.avg_rouge1.f =
      (exOut.rouge_scores.map (fun s => s.rouge1.f)).sum /
        (((["b"] : List String).length : Nat) : Rat) ∧
    exOut.avg_rouge2.r =
      (exOut.rouge_scores.map (fun s => s.rouge2.r)).sum /
        (((["b"] : List String).length : Nat) : Rat) ∧
    exOut.avg_rouge2.p =
      (exOut.rouge_scores.map (fun s => s.rouge2.p)).sum /
        (((["b"] : List String).length : Nat) : Rat) ∧
    exOut.avg_rouge2.f =
      (exOut.rouge_scores.map (fun s => s.rouge2.f)).sum /
        (((["b"] : List String).length : Nat) : Rat) ∧
    exOut.avg_rougeLsum.r =
      (exOut.rouge_scores.map (fun s => s.rougeLsum.r)).sum /
        (((["b"] : List String).length : Nat) : Rat) ∧
    exOut.avg_rougeLsum.p =
      (exOut.rouge_scores.map (fun s => s.rougeLsum.p)).sum /
        (((["b"] : List String).length : Nat) : Rat) ∧
    exOut.avg_rougeLsum.f =
      (exOut.rouge_scores.map (fun s => s.rougeLsum.f)).sum /
        (((["b"] : List String).length : Nat) : Rat) :=
  C7_average_is_mean (fun _ _ => exOnes) ["a"] ["b"] exOut rfl (by decide)
    (by
      simp only [RougeScorer.get_results, RougeScorer.scoreFold, List.zip, List.zipWith,
        List.foldl, KindScores.zero, KindScores.add, ScoreTriple.add, ScoreTriple.divN,
        exOnes, exOut, List.length_cons, List.length_nil]
      norm_num)

/-! ## Storage lemmas -/

theorem read_object_create_object_self (st : StorageState) (k : String) (r : RecipeRecord) :
    Storage.read_object (Storage.create_object st k r) k = some r := by
  induction st with
  | nil => simp [Storage.create_object, Storage.read_object]
  | cons p rest ih =>
      by_cases h : p.1 = k <;>
        simp [Storage.create_object, Storage.read_object, h, ih]

theorem read_object_eq_none_iff (st : StorageState) (k : String) :
    Storage.read_object st k = none ↔ k ∉ Storage.get_objects st := by
  induction st with
  | nil => simp [Storage.read_object, Storage.get_objects]
  | cons p rest ih =>
      by_cases h : p.1 = k
      · simp [Storage.read_object, Storage.get_objects, h]
      · have hk : ¬ k = p.1 := fun hh => h hh.symm
        simp [Storage.read_object, Storage.get_objects, h, hk, ih]

theorem delete_object_removes (st st2 : StorageState) (k : String)
    (hnodup : (Storage.get_objects st).Nodup)
    (hdel : Storage.delete_object st k = Except.ok st2) :
    Storage.read_object st2 k = none := by
  induction st generalizing st2 with
  | nil => exact absurd hdel (by simp [Storage.delete_object])
  | cons p rest ih =>
      simp only [Storage.get_objects, List.map_cons, List.nodup_cons] at hnodup
      by_cases h : p.1 = k
      · have hst2 : st2 = rest := by
          have := hdel
          simp only [Storage.delete_object, if_pos h] at this
          exact (Except.ok.inj this).symm
        subst hst2
        rw [read_object_eq_none_iff]
        rw [← h]
        exact hnodup.1
      · simp only [Storage.delete_object, if_neg h] at hdel
        cases hrest : Storage.delete_object rest k with
        | error e => rw [hrest] at hdel; exact absurd hdel (by simp)
        | ok st2' =>
            rw [hrest] at hdel
            have hst2 : st2 = p :: st2' := (Except.ok.inj hdel).symm
            subst hst2
            have hk : ¬ k = p.1 := fun hh => h hh.symm
            simp only [Storage.read_object, if_neg h]
            exact ih st2' hnodup.2 hrest

theorem strContains_append_left (s t : String) : strContains (s ++ t) s = true := by
  unfold strContains
  rw [List.any_eq_true]
  refine ⟨(s ++ t).toList, ?_, ?_⟩
  · rw [List.mem_tails]
  · have h : (s ++ t).toList = s.toList ++ t.toList := by
      simp [String.toList]
    rw [h]
    exact List.isPrefixOf_iff_prefix.mpr (List.prefix_append _ _)

/-! ## Listing-loop lemmas -/

theorem listLoop_filter (st : StorageState) (cat : List DatasetRecord)
    (dpc : List (String × Nat)) (keys : List String) :
    Recipe.listLoop st cat dpc keys =
      Recipe.listLoop st cat dpc (keys.filter (fun k => ! strContains k "__")) := by
  induction keys with
  | nil => rfl
  | cons k rest ih =>
      cases hc : strContains k "__" with
      | true => simp [Recipe.listLoop, List.filter_cons, hc, ih]
      | false => simp [Recipe.listLoop, List.filter_cons, hc, ih]

theorem listLoop_sources (st : StorageState) (cat : List DatasetRecord)
    (dpc : List (String × Nat)) (keys : List String)
    (ids : List String) (recs : List RecipeRecord)
    (hok : Recipe.listLoop st cat dpc keys = Except.ok (ids, recs)) :
    ids = recs.map RecipeRecord.id ∧
    ∀ r, r ∈ recs → ∃ key, key ∈ keys ∧ strContains key "__" = false ∧
      Recipe.read_recipe st cat key dpc = Except.ok r := by
  induction keys generalizing ids recs with
  | nil =>
      injection hok with h
      injection h with h1 h2
      subst h1
      subst h2
      exact ⟨rfl, by simp⟩
  | cons k rest ih =>
      cases hc : strContains k "__" with
      | true =>
          simp only [Recipe.listLoop, hc, if_true] at hok
          obtain ⟨h1, h2⟩ := ih ids recs hok
          refine ⟨h1, ?_⟩
          intro r hr
          obtain ⟨key, hk1, hk2, hk3⟩ := h2 r hr
          exact ⟨key, List.mem_cons_of_mem _ hk1, hk2, hk3⟩
      | false =>
          cases hr0 : Recipe.read_recipe st cat k dpc with
          | error e => simp [Recipe.listLoop, hc, hr0] at hok
          | ok r0 =>
              cases hrest : Recipe.listLoop st cat dpc rest with
              | error e => simp [Recipe.listLoop, hc, hr0, hrest] at hok
              | ok pr =>
                  obtain ⟨ids2, recs2⟩ := pr
                  simp only [Recipe.listLoop, hc, hr0, hrest, Bool.false_eq_true, if_false,
                    Except.ok.injEq, Prod.mk.injEq] at hok
                  obtain ⟨h1, h2⟩ := hok
                  subst h1
                  subst h2
                  obtain ⟨g1, g2⟩ := ih ids2 recs2 hrest
                  constructor
                  · simp [g1]
                  · intro r hrm
                    rcases List.mem_cons.mp hrm with he | hm
                    · exact ⟨k, List.mem_cons_self _ _, hc, by rw [hr0, he]⟩
                    · obtain ⟨key, hk1, hk2, hk3⟩ := g2 r hm
                      exact ⟨key, List.mem_cons_of_mem _ hk1, hk2, hk3⟩

/-! ## Registry claims: errors, listing, storage form -/

/-- C8: `read` (and so `load`) fails exactly when the id is the empty
string or no record with that id is stored; the absent-record failure
message is "Unable to get results for {id}." (which carries the quoted
"Unable to get results for {id}" as a prefix); and a successful delete
followed by a load of the same id fails. -/
theorem C8_read_not_found (st : StorageState) (cat : List DatasetRecord) (rec_id : String)
    (hnodup : (Storage.get_objects st).Nodup) :
    (isErr (Recipe.read st cat rec_id) = true ↔
      (rec_id = "" ∨ Storage.read_object st rec_id = none)) ∧
    (rec_id ≠ "" → Storage.read_object st rec_id = none →
      Recipe.read st cat rec_id =
        Except.error ("Unable to get results for " ++ rec_id ++ ".")) ∧
    strContains ("Unable to get results for " ++ rec_id ++ ".")
        ("Unable to get results for " ++ rec_id) = true ∧
    (∀ st2, Recipe.delete st rec_id = Except.ok (true, st2) →
      isErr (Recipe.load st2 cat rec_id) = true) := by
  refine ⟨?_, ?_, ?_, ?_⟩
  · by_cases hid : rec_id = ""
    · simp [Recipe.read, hid, isErr]
    · cases hobj : Storage.read_object st rec_id with
      | none => simp [Recipe.read, Recipe.read_recipe, hid, hobj, isErr]
      | some obj => simp [Recipe.read, Recipe.read_recipe, hid, hobj, isErr]
  · intro hid hobj
    simp [Recipe.read, Recipe.read_recipe, hid, hobj]
  · exact strContains_append_left ("Unable to get results for " ++ rec_id) "."
  · intro st2 hdel
    cases hd : Storage.delete_object st rec_id with
    | error e => simp [Recipe.delete, hd] at hdel
    | ok st2a =>
        simp only [Recipe.delete, hd, Except.ok.injEq, Prod.mk.injEq, true_and] at hdel
        subst hdel
        have hnone := delete_object_removes st st2a rec_id hnodup hd
        by_cases hid : rec_id = ""
        · simp [Recipe.load, Recipe.read, hid, isErr]
        · simp [Recipe.load, Recipe.read, Recipe.read_recipe, hid, hnone, isErr]

/-- C8 witness at the store holding only "r" and the id "r": the read
succeeds (neither failure condition holds), the message-containment fact
is concrete, and delete-then-load on "r" fails. -/
theorem C8_read_not_found_witness :
    (isErr (Recipe.read exStore exCatalog "r") = true ↔
      ("r" = "" ∨ Storage.read_object exStore "r" = none)) ∧
    ("r" ≠ "" → Storage.read_object exStore "r" = none →
      Recipe.read exStore exCatalog "r" =
        Except.error ("Unable to get results for " ++ "r" ++ ".")) ∧
    strContains ("Unable to get results for " ++ "r" ++ ".")
        ("Unable to get results for " ++ "r") = true ∧
    (∀ st2, Recipe.delete exStore "r" = Except.ok (true, st2) →
      isErr (Recipe.load st2 exCatalog "r") = true) :=
  C8_read_not_found exStore exCatalog "r" (by decide)

/-- C6 counterexample: an update whose arguments carry a client-supplied
stats block writes that stats block into durable storage, refuting the
claim that the stored record never contains a stats field. -/
theorem C6_counterexample :
    (Storage.read_object (Recipe.update [] exUpdateArgs).2 exUpdateArgs.id).map
        RecipeRecord.stats = some (some exStaleStats) := by rfl

/-- C6 (amended): a record written by `create` never contains a stats
block, while `update` re-serializes exactly the caller-supplied fields,
so the stored record carries a stats block precisely when the caller
supplied one. -/
theorem C6_amended (st : StorageState) (slug : String → String) (args : RecipeRecord) :
    (Storage.read_object (Recipe.create st slug args).2 (Recipe.create st slug args).1).map
        RecipeRecord.stats = some none ∧
    (Storage.read_object (Recipe.update st args).2 args.id).map RecipeRecord.stats =
      some args.stats := by
  constructor
  · simp only [Recipe.create]
    rw [read_object_create_object_self]
    rfl
  · simp only [Recipe.update, RecipeRecord.to_dict]
    rw [read_object_create_object_self]
    rfl

/-- C6 (amended) witness at the store holding "r", the identity
slugifier, and update arguments carrying a stale stats block. -/
theorem C6_amended_witness :
    (Storage.read_object (Recipe.create exStore (fun s => s) exUpdateArgs).2
        (Recipe.create exStore (fun s => s) exUpdateArgs).1).map
        RecipeRecord.stats = some none ∧
    (Storage.read_object (Recipe.update exStore exUpdateArgs).2 exUpdateArgs.id).map
        RecipeRecord.stats = some exUpdateArgs.stats :=
  C6_amended exStore (fun s => s) exUpdateArgs

/-- C9: a stored record whose storage key contains "__" never appears in
the listing: the enumeration equals the enumeration of exactly the keys
without "__", and every returned record (and its returned id) comes from
a key without "__". -/
theorem C9_listing_exclusion (st : StorageState) (cat : List DatasetRecord) :
    Recipe.get_available_items st cat =
      Recipe.listLoop st cat (Recipe.get_datasets_prompt_counts cat)
        ((Storage.get_objects st).filter (fun key => ! strContains key "__")) ∧
    ∀ ids recs, Recipe.get_available_items st cat = Except.ok (ids, recs) →
      ∀ r, r ∈ recs →
        ∃ key, key ∈ Storage.get_objects st ∧ strContains key "__" = false ∧
          Recipe.read_recipe st cat key (Recipe.get_datasets_prompt_counts cat) =
            Except.ok r ∧ r.id ∈ ids := by
  constructor
  · exact listLoop_filter st cat (Recipe.get_datasets_prompt_counts cat)
      (Storage.get_objects st)
  · intro ids recs hok r hr
    have hok2 : Recipe.listLoop st cat (Recipe.get_datasets_prompt_counts cat)
        (Storage.get_objects st) = Except.ok (ids, recs) := hok
    obtain ⟨h1, h2⟩ := listLoop_sources st cat _ _ ids recs hok2
    obtain ⟨key, hk1, hk2, hk3⟩ := h2 r hr
    refine ⟨key, hk1, hk2, hk3, ?_⟩
    rw [h1]
    exact List.mem_map_of_mem _ hr

/-- C9 witness: in a store with an internal key "sys__cache" and a plain
key "k", the listing returns only the record read from "k". -/
theorem C9_listing_exclusion_witness :
    ∃ key, key ∈ Storage.get_objects exStoreKeyed ∧ strContains key "__" = false ∧
      Recipe.read_recipe exStoreKeyed exCatalog key
          (Recipe.get_datasets_prompt_counts exCatalog) = Except.ok exLoadedOtherD1 ∧
      exLoadedOtherD1.id ∈ ["other"] :=
  (C9_listing_exclusion exStoreKeyed exCatalog).2 ["other"] [exLoadedOtherD1] (by rfl)
    exLoadedOtherD1 (by simp)

/-- C10: on success, the two lists of `get_available_items` have equal
length and the i-th id equals the i-th record's content id. -/
theorem C10_ids_match_records (st : StorageState) (cat : List DatasetRecord)
    (ids : List String) (recs : List RecipeRecord)
    (hok : Recipe.get_available_items st cat = Except.ok (ids, recs)) :
    ids.length = recs.length ∧ ids = recs.map RecipeRecord.id ∧
    ∀ (i : Nat) (h : i < ids.length) (h2 : i < recs.length),
      ids.get ⟨i, h⟩ = (recs.get ⟨i, h2⟩).id := by
  have hok2 : Recipe.listLoop st cat (Recipe.get_datasets_prompt_counts cat)
      (Storage.get_objects st) = Except.ok (ids, recs) := hok
  have h1 := (listLoop_sources st cat _ _ ids recs hok2).1
  subst h1
  refine ⟨by simp, rfl, ?_⟩
  intro i hi h2
  simp [List.getElem_map]

/-- C10 witness at a store whose storage key "k" differs from the stored
record's content id "other": the returned id is the content id. -/
theorem C10_ids_match_records_witness :
    (["other"] : List String).length = [exLoadedOther].length ∧
    (["other"] : List String) = [exLoadedOther].map RecipeRecord.id ∧
    ∀ (i : Nat) (h : i < (["other"] : List String).length) (h2 : i < [exLoadedOther].length),
      (["other"] : List String).get ⟨i, h⟩ = ([exLoadedOther].get ⟨i, h2⟩).id :=
  C10_ids_match_records exStoreK [] ["other"] [exLoadedOther] (by rfl)

/-! ## Stats-computation lemmas -/

theorem computeStats_counts (cat : List DatasetRecord) (obj : RecipeRecord)
    (dpc : List (String × Nat)) :
    (Recipe.computeStats cat obj dpc).num_of_tags = obj.tags.length ∧
    (Recipe.computeStats cat obj dpc).num_of_datasets = obj.datasets.length ∧
    (Recipe.computeStats cat obj dpc).num_of_prompt_templates = obj.prompt_templates.length ∧
    (Recipe.computeStats cat obj dpc).num_of_metrics = obj.metrics.length ∧
    (Recipe.computeStats cat obj dpc).num_of_attack_modules = obj.attack_modules.length :=
  ⟨rfl, rfl, rfl, rfl, rfl⟩

theorem computeStats_map_find (cat : List DatasetRecord) (obj : RecipeRecord)
    (dpc : List (String × Nat)) (hne : dpc ≠ []) (k : String) :
    dictFind (Recipe.computeStats cat obj dpc).num_of_datasets_prompts k =
      if k ∈ obj.datasets then some (dictGet dpc k 0) else none := by
  have hemp : dpc.isEmpty = false := by
    cases dpc with
    | nil => exact absurd rfl hne
    | cons a l => rfl
  have hdict : (Recipe.computeStats cat obj dpc).num_of_datasets_prompts =
      dictOf (obj.datasets.map (fun n => (n, dictGet dpc n 0))) := by
    simp [Recipe.computeStats, hemp]
  rw [hdict, dictFind_dictOf, ← List.map_reverse, dictFind_map_self]
  simp [List.mem_reverse]

theorem computeStats_fallback_find (cat : List DatasetRecord) (obj : RecipeRecord)
    (k : String) :
    dictFind (Recipe.computeStats cat obj []).num_of_datasets_prompts k =
      if k ∈ obj.datasets then dictFind (Recipe.get_datasets_prompt_counts cat) k
      else none := by
  have hdict : (Recipe.computeStats cat obj []).num_of_datasets_prompts =
      dictOf ((cat.filter (fun d => d.id ∈ obj.datasets)).map
        (fun d => (d.id, d.num_of_dataset_prompts))) := by
    simp [Recipe.computeStats, Dataset.get_available_items]
  have hfull : dictFind (Recipe.get_datasets_prompt_counts cat) k =
      dictFind (cat.reverse.map (fun d => (d.id, d.num_of_dataset_prompts))) k := by
    simp only [Recipe.get_datasets_prompt_counts, Dataset.get_available_items]
    rw [dictFind_dictOf, ← List.map_reverse]
  rw [hdict, dictFind_dictOf, ← List.map_reverse, ← List.filter_reverse]
  by_cases hk : k ∈ obj.datasets
  · rw [if_pos hk, hfull]
    apply dictFind_ds_filter
    intro d _ hdk
    simp [hdk, hk]
  · rw [if_neg hk]
    cases hfind : dictFind ((cat.reverse.filter (fun d => d.id ∈ obj.datasets)).map
        (fun d => (d.id, d.num_of_dataset_prompts))) k with
    | none => rfl
    | some v =>
        exfalso
        have hsome : (dictFind ((cat.reverse.filter (fun d => d.id ∈ obj.datasets)).map
            (fun d => (d.id, d.num_of_dataset_prompts))) k).isSome = true := by
          rw [hfind]; rfl
        rw [dictFind_ds] at hsome
        simp only [List.mem_map, List.mem_filter, List.mem_reverse] at hsome
        obtain ⟨d, ⟨_, hq⟩, hdk⟩ := hsome
        rw [decide_eq_true_eq] at hq
        rw [hdk] at hq
        exact hk hq

theorem get_datasets_prompt_counts_isSome (cat : List DatasetRecord) (k : String) :
    (dictFind (Recipe.get_datasets_prompt_counts cat) k).isSome = true ↔
      k ∈ cat.map DatasetRecord.id := by
  simp only [Recipe.get_datasets_prompt_counts, Dataset.get_available_items]
  rw [dictFind_dictOf, ← List.map_reverse, dictFind_ds]
  simp [List.mem_map, List.mem_reverse]

/-! ## Claims C1, C2, C4: stats key sets and path equivalence -/

/-- C1 counterexample: on the single-id read path (no precomputed map),
a recipe referencing the dataset "d1" read against a catalog that does
not know "d1" yields a stats block whose num_of_datasets_prompts is
empty — "d1" is omitted instead of being mapped to 0, refuting the claim
for that path. -/
theorem C1_counterexample :
    okResult (Recipe.read exStore exCatalog "r") =
      some { exRecipe with stats := some exStatsEmptyCat } ∧
    exRecipe.datasets = ["d1"] ∧
    dictFind exStatsEmptyCat.num_of_datasets_prompts "d1" = none := by decide

/-- C1 (amended): on the precomputed-map path (non-empty map) the stats
key set is exactly the recipe's datasets list, every dataset missing
from the map mapped to 0 with no failure; but on the single-id fallback
path (empty map) the key set is the datasets present in the catalog —
a dataset unknown to the catalog is omitted (still with no failure). -/
theorem C1_stats_keys (st : StorageState) (cat : List DatasetRecord) (rec_id : String)
    (dpc : List (String × Nat)) (obj : RecipeRecord)
    (hobj : Storage.read_object st rec_id = some obj) :
    Recipe.read_recipe st cat rec_id dpc =
      Except.ok { obj with stats := some (Recipe.computeStats cat obj dpc) } ∧
    (dpc ≠ [] →
      ∀ k, dictFind (Recipe.computeStats cat obj dpc).num_of_datasets_prompts k =
        if k ∈ obj.datasets then some (dictGet dpc k 0) else none) ∧
    (dpc ≠ [] → ∀ k, k ∈ obj.datasets → k ∉ dictKeys dpc →
      dictFind (Recipe.computeStats cat obj dpc).num_of_datasets_prompts k = some 0) ∧
    (dpc = [] →
      ∀ k, (dictFind (Recipe.computeStats cat obj dpc).num_of_datasets_prompts k).isSome = true
        ↔ (k ∈ obj.datasets ∧ k ∈ cat.map DatasetRecord.id)) := by
  refine ⟨?_, ?_, ?_, ?_⟩
  · simp [Recipe.read_recipe, hobj]
  · intro hne k
    exact computeStats_map_find cat obj dpc hne k
  · intro hne k hk hnk
    rw [computeStats_map_find cat obj dpc hne k, if_pos hk]
    have hnone : dictFind dpc k = none := by
      cases h : dictFind dpc k with
      | none => rfl
      | some v =>
          exact absurd ((dictFind_isSome dpc k).mp (by rw [h]; rfl)) hnk
    simp [dictGet, hnone]
  · intro hemp k
    subst hemp
    rw [computeStats_fallback_find cat obj k]
    by_cases hk : k ∈ obj.datasets
    · simp [hk, get_datasets_prompt_counts_isSome]
    · simp [hk]

/-- C1 (amended) witness at the store holding the "d1"-referencing
recipe "r", the catalog knowing only "other", and the non-empty
precomputed map of that catalog. -/
theorem C1_stats_keys_witness :
    Recipe.read_recipe exStore exCatalog "r" [("other", 5)] =
      Except.ok
        { exRecipe with
          stats := some (Recipe.computeStats exCatalog exRecipe [("other", 5)]) } ∧
    ([("other", 5)] ≠ ([] : List (String × Nat)) →
      ∀ k, dictFind (Recipe.computeStats exCatalog exRecipe
          [("other", 5)]).num_of_datasets_prompts k =
        if k ∈ exRecipe.datasets then some (dictGet [("other", 5)] k 0) else none) ∧
    ([("other", 5)] ≠ ([] : List (String × Nat)) →
      ∀ k, k ∈ exRecipe.datasets → k ∉ dictKeys [("other", 5)] →
      dictFind (Recipe.computeStats exCatalog exRecipe
          [("other", 5)]).num_of_datasets_prompts k = some 0) ∧
    ([("other", 5)] = ([] : List (String × Nat)) →
      ∀ k, (dictFind (Recipe.computeStats exCatalog exRecipe
          [("other", 5)]).num_of_datasets_prompts k).isSome = true
        ↔ (k ∈ exRecipe.datasets ∧ k ∈ exCatalog.map DatasetRecord.id)) :=
  C1_stats_keys exStore exCatalog "r" [("other", 5)] exRecipe (by rfl)

/-- C2 counterexample: with the recipe referencing "d1" and the catalog
knowing only "other", the precomputed-full-map path returns a stats dict
binding "d1" to 0 while the no-map fallback path returns an empty stats
dict — the two `read` code paths disagree (even up to Python dict
equality), refuting the equivalence claim. -/
theorem C2_counterexample :
    Recipe.get_datasets_prompt_counts exCatalog = [("other", 5)] ∧
    okResult (Recipe.read_recipe exStore exCatalog "r" [("other", 5)]) =
      some
        { exRecipe with
          stats := some { exStatsEmptyCat with num_of_datasets_prompts := [("d1", 0)] } } ∧
    okResult (Recipe.read_recipe exStore exCatalog "r" []) =
      some { exRecipe with stats := some exStatsEmptyCat } ∧
    dictFind [("d1", 0)] "d1" ≠ dictFind ([] : List (String × Nat)) "d1" := by decide

/-- C2 (amended): the two `read` paths are equivalent whenever every
dataset referenced by the recipe exists in the catalog: both succeed on
the same stored record, the five counts agree, and the two
num_of_datasets_prompts dicts are equal as Python dicts (same keys,
same values); they differ only on recipe datasets absent from the
catalog. -/
theorem C2_read_paths_equiv (st : StorageState) (cat : List DatasetRecord) (rec_id : String)
    (obj : RecipeRecord)
    (hobj : Storage.read_object st rec_id = some obj)
    (hsub : ∀ d, d ∈ obj.datasets → d ∈ cat.map DatasetRecord.id) :
    Recipe.read_recipe st cat rec_id (Recipe.get_datasets_prompt_counts cat) =
      Except.ok
        { obj with
          stats := some (Recipe.computeStats cat obj
            (Recipe.get_datasets_prompt_counts cat)) } ∧
    Recipe.read_recipe st cat rec_id [] =
      Except.ok { obj with stats := some (Recipe.computeStats cat obj []) } ∧
    (Recipe.computeStats cat obj (Recipe.get_datasets_prompt_counts cat)).num_of_tags =
      (Recipe.computeStats cat obj []).num_of_tags ∧
    (Recipe.computeStats cat obj (Recipe.get_datasets_prompt_counts cat)).num_of_datasets =
      (Recipe.computeStats cat obj []).num_of_datasets ∧
    (Recipe.computeStats cat obj
        (Recipe.get_datasets_prompt_counts cat)).num_of_prompt_templates =
      (Recipe.computeStats cat obj []).num_of_prompt_templates ∧
    (Recipe.computeStats cat obj (Recipe.get_datasets_prompt_counts cat)).num_of_metrics =
      (Recipe.computeStats cat obj []).num_of_metrics ∧
    (Recipe.computeStats cat obj
        (Recipe.get_datasets_prompt_counts cat)).num_of_attack_modules =
      (Recipe.computeStats cat obj []).num_of_attack_modules ∧
    dictEquiv
      (Recipe.computeStats cat obj
        (Recipe.get_datasets_prompt_counts cat)).num_of_datasets_prompts
      (Recipe.computeStats cat obj []).num_of_datasets_prompts := by
  refine ⟨by simp [Recipe.read_recipe, hobj], by simp [Recipe.read_recipe, hobj],
    rfl, rfl, rfl, rfl, rfl, ?_⟩
  intro k
  by_cases hm : Recipe.get_datasets_prompt_counts cat = []
  · rw [hm]
  · rw [computeStats_map_find cat obj _ hm k, computeStats_fallback_find cat obj k]
    by_cases hk : k ∈ obj.datasets
    · rw [if_pos hk, if_pos hk]
      have hmem : k ∈ cat.map DatasetRecord.id := hsub k hk
      have hS : (dictFind (Recipe.get_datasets_prompt_counts cat) k).isSome = true :=
        (get_datasets_prompt_counts_isSome cat k).mpr hmem
      cases h : dictFind (Recipe.get_datasets_prompt_counts cat) k with
      | none => rw [h] at hS; exact absurd hS (by simp)
      | some v => simp [dictGet, h]
    · rw [if_neg hk, if_neg hk]

/-- C2 (amended) witness at the "d1"-referencing recipe "r" and a
catalog knowing both "d1" and "other". -/
theorem C2_read_paths_equiv_witness :
    Recipe.read_recipe exStore exCatalogD1 "r" (Recipe.get_datasets_prompt_counts exCatalogD1) =
      Except.ok
        { exRecipe with
          stats := some (Recipe.computeStats exCatalogD1 exRecipe
            (Recipe.get_datasets_prompt_counts exCatalogD1)) } ∧
    Recipe.read_recipe exStore exCatalogD1 "r" [] =
      Except.ok { exRecipe with stats := some (Recipe.computeStats exCatalogD1 exRecipe []) } ∧
    (Recipe.computeStats exCatalogD1 exRecipe
        (Recipe.get_datasets_prompt_counts exCatalogD1)).num_of_tags =
      (Recipe.computeStats exCatalogD1 exRecipe []).num_of_tags ∧
    (Recipe.computeStats exCatalogD1 exRecipe
        (Recipe.get_datasets_prompt_counts exCatalogD1)).num_of_datasets =
      (Recipe.computeStats exCatalogD1 exRecipe []).num_of_datasets ∧
    (Recipe.computeStats exCatalogD1 exRecipe
        (Recipe.get_datasets_prompt_counts exCatalogD1)).num_of_prompt_templates =
      (Recipe.computeStats exCatalogD1 exRecipe []).num_of_prompt_templates ∧
    (Recipe.computeStats exCatalogD1 exRecipe
        (Recipe.get_datasets_prompt_counts exCatalogD1)).num_of_metrics =
      (Recipe.computeStats exCatalogD1 exRecipe []).num_of_metrics ∧
    (Recipe.computeStats exCatalogD1 exRecipe
        (Recipe.get_datasets_prompt_counts exCatalogD1)).num_of_attack_modules =
      (Recipe.computeStats exCatalogD1 exRecipe []).num_of_attack_modules ∧
    dictEquiv
      (Recipe.computeStats exCatalogD1 exRecipe
        (Recipe.get_datasets_prompt_counts exCatalogD1)).num_of_datasets_prompts
      (Recipe.computeStats exCatalogD1 exRecipe []).num_of_datasets_prompts :=
  C2_read_paths_equiv exStore exCatalogD1 "r" exRecipe (by rfl)
    (by
      intro d hd
      have hd1 : d = "d1" := by
        simpa [exRecipe] using hd
      subst hd1
      decide)

/-- C4 counterexample: create with a field set referencing the dataset
"d1", then load of the returned id against a catalog that does not know
"d1": the loaded stats dict has no keys at all, so it is not keyed
exactly by the field set's datasets list, refuting the round-trip claim
as stated. -/
theorem C4_counterexample :
    (Recipe.create [] (fun s => s) exRecipe).1 = "r" ∧
    loadedStats (Recipe.create [] (fun s => s) exRecipe).2 exCatalog "r" =
      some exStatsEmptyCat ∧
    exRecipe.datasets = ["d1"] ∧
    dictKeys exStatsEmptyCat.num_of_datasets_prompts = [] := by decide

/-- C4 (amended): create followed by load of the returned id yields a
record whose base fields equal the given fields and whose stats block is
populated; its num_of_datasets_prompts is keyed exactly by the fields'
datasets list provided the slugified name is non-empty and every
referenced dataset exists in the catalog (datasets missing from the
catalog are dropped from the keys). -/
theorem C4_create_load_roundtrip (st : StorageState) (cat : List DatasetRecord)
    (slug : String → String) (fields : RecipeRecord)
    (hid : slug fields.name ≠ "")
    (hsub : ∀ d, d ∈ fields.datasets → d ∈ cat.map DatasetRecord.id) :
    (loadedRecord (Recipe.create st slug fields).2 cat (Recipe.create st slug fields).1).map
        RecipeRecord.name = some fields.name ∧
    (loadedRecord (Recipe.create st slug fields).2 cat (Recipe.create st slug fields).1).map
        RecipeRecord.description = some fields.description ∧
    (loadedRecord (Recipe.create st slug fields).2 cat (Recipe.create st slug fields).1).map
        RecipeRecord.tags = some fields.tags ∧
    (loadedRecord (Recipe.create st slug fields).2 cat (Recipe.create st slug fields).1).map
        RecipeRecord.categories = some fields.categories ∧
    (loadedRecord (Recipe.create st slug fields).2 cat (Recipe.create st slug fields).1).map
        RecipeRecord.datasets = some fields.datasets ∧
    (loadedRecord (Recipe.create st slug fields).2 cat (Recipe.create st slug fields).1).map
        RecipeRecord.prompt_templates = some fields.prompt_templates ∧
    (loadedRecord (Recipe.create st slug fields).2 cat (Recipe.create st slug fields).1).map
        RecipeRecord.metrics = some fields.metrics ∧
    (loadedRecord (Recipe.create st slug fields).2 cat (Recipe.create st slug fields).1).map
        RecipeRecord.attack_modules = some fields.attack_modules ∧
    (loadedRecord (Recipe.create st slug fields).2 cat (Recipe.create st slug fields).1).map
        RecipeRecord.grading_scale = some fields.grading_scale ∧
    (∃ s, loadedStats (Recipe.create st slug fields).2 cat (Recipe.create st slug fields).1 =
        some s ∧ ∀ k, k ∈ dictKeys s.num_of_datasets_prompts ↔ k ∈ fields.datasets) := by
  have h1 : (Recipe.create st slug fields).1 = slug fields.name := rfl
  have h2 : (Recipe.create st slug fields).2 =
      Storage.create_object st (slug fields.name) (createdRecord slug fields) := rfl
  have hrr : Recipe.read_recipe (Recipe.create st slug fields).2 cat (slug fields.name) [] =
      Except.ok
        { createdRecord slug fields with
          stats := some (Recipe.computeStats cat (createdRecord slug fields) []) } := by
    rw [h2]
    simp [Recipe.read_recipe, read_object_create_object_self]
  have hloadeq : Recipe.load (Recipe.create st slug fields).2 cat
      (Recipe.create st slug fields).1 =
      Except.ok
        { createdRecord slug fields with
          stats := some (Recipe.computeStats cat (createdRecord slug fields) []) } := by
    rw [h1]
    simp [Recipe.load, Recipe.read, hid, hrr]
  have hload : loadedRecord (Recipe.create st slug fields).2 cat
      (Recipe.create st slug fields).1 =
      some
        { createdRecord slug fields with
          stats := some (Recipe.computeStats cat (createdRecord slug fields) []) } := by
    simp [loadedRecord, hloadeq]
  refine ⟨?_, ?_, ?_, ?_, ?_, ?_, ?_, ?_, ?_, ?_⟩
  · simp [hload, createdRecord]
  · simp [hload, createdRecord]
  · simp [hload, createdRecord]
  · simp [hload, createdRecord]
  · simp [hload, createdRecord]
  · simp [hload, createdRecord]
  · simp [hload, createdRecord]
  · simp [hload, createdRecord]
  · simp [hload, createdRecord]
  · refine ⟨Recipe.computeStats cat (createdRecord slug fields) [], ?_, ?_⟩
    · simp [loadedStats, hload]
    · intro k
      rw [← dictFind_isSome, computeStats_fallback_find]
      by_cases hk : k ∈ (createdRecord slug fields).datasets
      · rw [if_pos hk]
        have hkf : k ∈ fields.datasets := hk
        simp [get_datasets_prompt_counts_isSome, hsub k hkf, hkf]
      · rw [if_neg hk]
        have hkf : k ∉ fields.datasets := hk
        simp [hkf]

/-- C4 (amended) witness: create the "d1"-referencing field set into the
empty store with the identity slugifier and load it back against a
catalog that knows "d1". -/
theorem C4_create_load_roundtrip_witness :
    (loadedRecord (Recipe.create [] (fun s => s) exRecipe).2 exCatalogD1
        (Recipe.create [] (fun s => s) exRecipe).1).map
        RecipeRecord.name = some exRecipe.name ∧
    (loadedRecord (Recipe.create [] (fun s => s) exRecipe).2 exCatalogD1
        (Recipe.create [] (fun s => s) exRecipe).1).map
        RecipeRecord.description = some exRecipe.description ∧
    (loadedRecord (Recipe.create [] (fun s => s) exRecipe).2 exCatalogD1
        (Recipe.create [] (fun s => s) exRecipe).1).map
        RecipeRecord.tags = some exRecipe.tags ∧
    (loadedRecord (Recipe.create [] (fun s => s) exRecipe).2 exCatalogD1
        (Recipe.create [] (fun s => s) exRecipe).1).map
        RecipeRecord.categories = some exRecipe.categories ∧
    (loadedRecord (Recipe.create [] (fun s => s) exRecipe).2 exCatalogD1
        (Recipe.create [] (fun s => s) exRecipe).1).map
        RecipeRecord.datasets = some exRecipe.datasets ∧
    (loadedRecord (Recipe.create [] (fun s => s) exRecipe).2 exCatalogD1
        (Recipe.create [] (fun s => s) exRecipe).1).map
        RecipeRecord.prompt_templates = some exRecipe.prompt_templates ∧
    (loadedRecord (Recipe.create [] (fun s => s) exRecipe).2 exCatalogD1
        (Recipe.create [] (fun s => s) exRecipe).1).map
        RecipeRecord.metrics = some exRecipe.metrics ∧
    (loadedRecord (Recipe.create [] (fun s => s) exRecipe).2 exCatalogD1
        (Recipe.create [] (fun s => s) exRecipe).1).map
        RecipeRecord.attack_modules = some exRecipe.attack_modules ∧
    (loadedRecord (Recipe.create [] (fun s => s) exRecipe).2 exCatalogD1
        (Recipe.create [] (fun s => s) exRecipe).1).map
        RecipeRecord.grading_scale = some exRecipe.grading_scale ∧
    (∃ s, loadedStats (Recipe.create [] (fun s => s) exRecipe).2 exCatalogD1
        (Recipe.create [] (fun s => s) exRecipe).1 = some s ∧
      ∀ k, k ∈ dictKeys s.num_of_datasets_prompts ↔ k ∈ exRecipe.datasets) :=
  C4_create_load_roundtrip [] exCatalogD1 (fun s => s) exRecipe (by decide)
    (by
      intro d hd
      have hd1 : d = "d1" := by
        simpa [exRecipe] using hd
      subst hd1
      decide)

end Moonshot
